import Mathlib

/-!
Verification development for the offline-first synchronization layer of the
frontend template repository.  The embedded definitions translate the
TypeScript in `frontend/docs/frontend_Arc_Document.md`:

* `src/types/sync.ts` — `SyncStatus`, `OfflineEntity`, `SyncQueueItem`;
* `src/services/db.ts` — the Dexie database with an `organizations` table
  (primary key `id`) and a `sync_queue` table (auto-increment key `++id`);
* `src/services/syncService.ts` — `SyncService.processQueue` with its
  `isSyncing` re-entrancy flag and the `entityHandlers` registry that only
  registers `organization`;
* `src/services/organizations/organizationRepository.ts` — thin wrappers
  around Dexie table operations;
* `src/hooks/organizations/useAddOrganization.ts` — the create path
  (`mutationFn` writes the store, `onSuccess` enqueues).

Dexie table semantics used by those wrappers follow Dexie's documented
behaviour: `Table.add` rejects with a `ConstraintError` when the primary key
already exists, `Table.update` resolves with the number of updated rows
(0 when the key is absent, never an error), and `Table.delete` resolves even
when the key is absent.  `toArray` on the auto-incremented `sync_queue`
returns items in ascending key order, i.e. enqueue order.

The remote API (`handler.api.create/update/delete`, an Axios client) is
abstracted as an oracle `Remote` deciding success or a thrown error for each
call; the event trace (`SyncEvent`) records each queue snapshot read and each
network call actually issued, so that "no network call" properties are
statable.
-/

/-- `src/types/sync.ts`: `type SyncStatus = "synced" | "pending" | "error"`. -/
inductive SyncStatus where
  | synced
  | pending
  | error
deriving DecidableEq, Repr

/-- The `action` field of a `SyncQueueItem`: `"create" | "update" | "delete"`. -/
inductive SyncAction where
  | create
  | update
  | delete
deriving DecidableEq, Repr

/-- The `entity` discriminator of a `SyncQueueItem`:
`"organization" | "assessment" | "user"`. -/
inductive EntityKind where
  | organization
  | assessment
  | user
deriving DecidableEq, Repr

/-- `src/types/organization.ts`: `Organization extends OfflineEntity` with a
client-generated UUID `id`, a `name`, the sync metadata `syncStatus` and the
ISO-8601 string `lastModified`. -/
structure Organization where
  id : String
  name : String
  syncStatus : SyncStatus
  lastModified : String
deriving DecidableEq, Repr

/-- `src/types/sync.ts`: `SyncQueueItem`.  In the Dexie table the key `id` is
auto-assigned (`++id`), so every stored item carries a concrete `Nat` key;
`retries` and `error` are the optional fields of the interface.  The payload
of every item produced by the organization feature is the full entity
(`item.payload.id` is read for `update`/`delete`). -/
structure SyncQueueItem where
  id : Nat
  entity : EntityKind
  action : SyncAction
  payload : Organization
  retries : Option Nat := none
  error : Option String := none
deriving DecidableEq, Repr

/-- `src/services/db.ts`: the `AppDatabase` with its two tables.  Lists model
the table contents; `sync_queue` is kept in ascending key order (the order
`toArray` yields for an auto-increment primary key) and `nextQueueId` is the
auto-increment counter. -/
structure AppDatabase where
  organizations : List Organization
  sync_queue : List SyncQueueItem
  nextQueueId : Nat
deriving DecidableEq, Repr

/-- A `Partial<Organization>` value as passed to Dexie's `Table.update`:
each present field overwrites the stored one. -/
structure OrgChanges where
  name : Option String := none
  syncStatus : Option SyncStatus := none
  lastModified : Option String := none
deriving DecidableEq, Repr

/-- Apply a `Partial<Organization>` to a stored row. -/
def applyChanges (c : OrgChanges) (o : Organization) : Organization :=
  { o with
    name := c.name.getD o.name
    syncStatus := c.syncStatus.getD o.syncStatus
    lastModified := c.lastModified.getD o.lastModified }

/-- Dexie `Table.update(key, changes)` on the `organizations` table: updates
the row whose primary key matches and resolves with the number of updated
rows — `0` when the key is absent (Dexie resolves, it does not reject). -/
def tableUpdateOrg (orgs : List Organization) (id : String) (c : OrgChanges) :
    List Organization × Nat :=
  if orgs.any (fun o => o.id = id) then
    (orgs.map (fun o => if o.id = id then applyChanges c o else o), 1)
  else
    (orgs, 0)

/-- Dexie `Table.add(obj)` on the `organizations` table: rejects with a
`ConstraintError` when a row with the same primary key exists, otherwise
stores the row. -/
def tableAddOrg (orgs : List Organization) (org : Organization) :
    Except String (List Organization) :=
  if orgs.any (fun o => o.id = org.id) then
    Except.error "ConstraintError: Key already exists in the object store."
  else
    Except.ok (orgs ++ [org])

/-- Dexie `Table.delete(key)` on the `organizations` table: removes the row;
resolves even when the key is absent (a no-op, not an error). -/
def tableDeleteOrg (orgs : List Organization) (id : String) : List Organization :=
  orgs.filter (fun o => o.id ≠ id)

/-- `db.sync_queue.delete(key)`: removes the queue item with that key;
resolves even when absent. -/
def queueDelete (q : List SyncQueueItem) (id : Nat) : List SyncQueueItem :=
  q.filter (fun i => i.id ≠ id)

/-- `db.sync_queue.update(key, { error: msg })`: records the failure message
on the item with that key (no other field is touched); resolves with 0
updated rows when absent. -/
def queueUpdate (q : List SyncQueueItem) (id : Nat) (msg : String) :
    List SyncQueueItem :=
  q.map (fun i => if i.id = id then { i with error := some msg } else i)

/-- `db.sync_queue.add({entity, action, payload})`: Dexie assigns the next
auto-increment key and appends the item; `retries` and `error` are left
absent, exactly as in the object literal the hooks enqueue. -/
def queueAdd (db : AppDatabase) (entity : EntityKind) (action : SyncAction)
    (payload : Organization) : AppDatabase :=
  { db with
    sync_queue := db.sync_queue ++
      [{ id := db.nextQueueId, entity := entity, action := action,
         payload := payload, retries := none, error := none }]
    nextQueueId := db.nextQueueId + 1 }

/-- `organizationRepository.getAll`: `db.organizations.toArray()`. -/
def organizationRepository.getAll (db : AppDatabase) : List Organization :=
  db.organizations

/-- `organizationRepository.add`: `db.organizations.add(org)`. -/
def organizationRepository.add (db : AppDatabase) (org : Organization) :
    Except String AppDatabase :=
  match tableAddOrg db.organizations org with
  | Except.error e => Except.error e
  | Except.ok orgs => Except.ok { db with organizations := orgs }

/-- `organizationRepository.update`: `db.organizations.update(id, changes)`;
the `Nat` component is the row count Dexie resolves with. -/
def organizationRepository.update (db : AppDatabase) (id : String)
    (c : OrgChanges) : AppDatabase × Nat :=
  let r := tableUpdateOrg db.organizations id c
  ({ db with organizations := r.1 }, r.2)

/-- `organizationRepository.delete`: `db.organizations.delete(id)`. -/
def organizationRepository.delete (db : AppDatabase) (id : String) :
    AppDatabase :=
  { db with organizations := tableDeleteOrg db.organizations id }

/-- The `entityHandlers` registry in `syncService.ts` maps only
`organization` to its api/repo pair; indexing it with any other kind yields
`undefined` in the source. -/
def entityHandlers : EntityKind → Bool
  | EntityKind.organization => true
  | _ => false

/-- The message of the `TypeError` raised when `handler` is `undefined` and
the code dereferences `handler.api`. -/
def handlerTypeError : String :=
  "Cannot read properties of undefined (reading 'api')"

/-- Outcome oracle for the remote API (`handler.api.create/update/delete`):
for each issued call, either a successful acknowledgment or the message of
the thrown error. -/
abbrev Remote := EntityKind → SyncAction → Organization → Except String Unit

/-- An observable effect of the sync engine: reading the queue snapshot
(`db.sync_queue.toArray()`) or issuing one remote API call. -/
inductive SyncEvent where
  | readQueue (count : Nat)
  | apiCall (entity : EntityKind) (action : SyncAction) (payloadId : String)
deriving DecidableEq, Repr

/-- One iteration of the `for (const item of queueItems)` loop of
`SyncService.processQueue`:

* `entityHandlers[item.entity]` is looked up; when `undefined`, dereferencing
  `handler.api` throws a `TypeError` before any network call, the `catch`
  block records the message via `db.sync_queue.update(item.id, {error})` and
  the loop continues;
* otherwise the action-specific api call is awaited; on success the code
  runs `handler.repo.update(item.payload.id, { syncStatus: "synced" })`
  unless the action is `delete`, then `db.sync_queue.delete(item.id)`;
* on a thrown api error the `catch` block records the message on the item.

Returns the database after the iteration and the events it emitted. -/
def processItem (remote : Remote) (db : AppDatabase) (item : SyncQueueItem) :
    AppDatabase × List SyncEvent :=
  if entityHandlers item.entity then
    match remote item.entity item.action item.payload with
    | Except.ok _ =>
      let db1 :=
        if item.action = SyncAction.delete then db
        else (organizationRepository.update db item.payload.id
          { syncStatus := some SyncStatus.synced }).1
      ({ db1 with sync_queue := queueDelete db1.sync_queue item.id },
       [SyncEvent.apiCall item.entity item.action item.payload.id])
    | Except.error msg =>
      ({ db with sync_queue := queueUpdate db.sync_queue item.id msg },
       [SyncEvent.apiCall item.entity item.action item.payload.id])
  else
    ({ db with sync_queue := queueUpdate db.sync_queue item.id handlerTypeError },
     [])

/-- The whole `for` loop over the snapshot `queueItems`, threading the
database and concatenating the event traces. -/
def processItems (remote : Remote) : AppDatabase → List SyncQueueItem →
    AppDatabase × List SyncEvent
  | db, [] => (db, [])
  | db, item :: rest =>
    let r1 := processItem remote db item
    let r2 := processItems remote r1.1 rest
    (r2.1, r1.2 ++ r2.2)

/-- The mutable state of the `SyncService` singleton: the database plus the
private `isSyncing` re-entrancy flag. -/
structure SyncState where
  db : AppDatabase
  isSyncing : Bool
deriving DecidableEq, Repr

/-- The synchronous prefix of `processQueue`, up to the first `await`:
`if (this.isSyncing || !navigator.onLine) return;` then
`this.isSyncing = true;`.  In the JavaScript event loop this prefix runs
atomically, so two concurrently fired triggers cannot both pass it. -/
def processQueue_guard (online : Bool) (s : SyncState) : Option SyncState :=
  if s.isSyncing || !online then none else some { s with isSyncing := true }

/-- `SyncService.processQueue` as a whole cycle: guard, snapshot the queue
with `toArray`, early-return on an empty snapshot, otherwise run the loop;
the flag is reset on every exit path.  Returns the final state and the trace
of queue reads and network calls. -/
def processQueue (online : Bool) (remote : Remote) (s : SyncState) :
    SyncState × List SyncEvent :=
  match processQueue_guard online s with
  | none => (s, [])
  | some s1 =>
    let queueItems := s1.db.sync_queue
    if queueItems.isEmpty then
      ({ s1 with isSyncing := false }, [SyncEvent.readQueue 0])
    else
      let r := processItems remote s1.db queueItems
      ({ db := r.1, isSyncing := false },
       SyncEvent.readQueue queueItems.length :: r.2)

/-- `useAddOrganization`'s `mutationFn`: builds the new entity with the
generated UUID, `syncStatus: "pending"` and `lastModified: now`, writes it
with `organizationRepository.add`, and returns it.  No apiClient call occurs
on this path. -/
def useAddOrganization.mutationFn (genId now name : String)
    (db : AppDatabase) : Except String (AppDatabase × Organization) :=
  let newOrg : Organization :=
    { id := genId, name := name, syncStatus := SyncStatus.pending,
      lastModified := now }
  match organizationRepository.add db newOrg with
  | Except.error e => Except.error e
  | Except.ok db1 => Except.ok (db1, newOrg)

/-- `useAddOrganization`'s `onSuccess` callback: enqueues
`{entity: "organization", action: "create", payload: newOrg}` on the sync
queue.  It runs only after `mutationFn` resolved, as a separate step. -/
def useAddOrganization.onSuccess (newOrg : Organization) (db : AppDatabase) :
    AppDatabase :=
  queueAdd db EntityKind.organization SyncAction.create newOrg

/-- The complete create path as the caller observes it: `mutationFn`
followed by `onSuccess` when it succeeded.  The `List SyncEvent` component
is the trace of apiClient calls issued on the path; the source path contains
none, so the trace is empty. -/
def useAddOrganization.run (genId now name : String) (db : AppDatabase) :
    Except String (AppDatabase × Organization × List SyncEvent) :=
  match useAddOrganization.mutationFn genId now name db with
  | Except.error e => Except.error e
  | Except.ok (db1, org) =>
    Except.ok (useAddOrganization.onSuccess org db1, org, [])

/-! ### Concrete fixtures used by counterexamples and witnesses -/

/-- A stored organization with a pending local mutation. -/
def org1 : Organization :=
  { id := "e1", name := "Coop", syncStatus := SyncStatus.pending,
    lastModified := "2026-01-01T00:00:00Z" }

/-- Queue item 1: the `create` enqueued first for entity `e1`. -/
def item1 : SyncQueueItem :=
  { id := 1, entity := EntityKind.organization, action := SyncAction.create,
    payload := org1 }

/-- Queue item 2: an `update` for the same entity, enqueued after `item1`. -/
def item2 : SyncQueueItem :=
  { id := 2, entity := EntityKind.organization, action := SyncAction.update,
    payload := { org1 with name := "Coop2" } }

/-- A queue item whose `entity` kind has no registered handler. -/
def itemA : SyncQueueItem :=
  { id := 5, entity := EntityKind.assessment, action := SyncAction.create,
    payload := org1 }

/-- A `delete` queue item for the handled kind. -/
def itemD : SyncQueueItem :=
  { id := 7, entity := EntityKind.organization, action := SyncAction.delete,
    payload := org1 }

/-- Database holding `e1` with a `create` and a newer `update` queued. -/
def db0 : AppDatabase :=
  { organizations := [org1], sync_queue := [item1, item2], nextQueueId := 3 }

/-- A remote API that acknowledges every call. -/
def remoteAllOk : Remote := fun _ _ _ => Except.ok ()

/-- A remote API that rejects every call with a transient network error. -/
def remoteFailAll : Remote := fun _ _ _ => Except.error "Network Error"

/-- A remote API where only `update` calls fail. -/
def remoteFailUpdate : Remote := fun _ a _ =>
  if a = SyncAction.update then Except.error "Network Error" else Except.ok ()

/-- A remote API where only `create` calls fail. -/
def remoteFailCreate : Remote := fun _ a _ =>
  if a = SyncAction.create then Except.error "Network Error" else Except.ok ()

/-! ### Helper lemmas -/

/-- The one remote call a queue item gives rise to in a drain cycle: exactly
one api call when its kind has a registered handler, none otherwise. -/
def callOf (item : SyncQueueItem) : List SyncEvent :=
  if entityHandlers item.entity then
    [SyncEvent.apiCall item.entity item.action item.payload.id]
  else []

theorem queueUpdate_ids (q : List SyncQueueItem) (qid : Nat) (msg : String) :
    (queueUpdate q qid msg).map SyncQueueItem.id = q.map SyncQueueItem.id := by
  unfold queueUpdate
  rw [List.map_map]
  apply List.map_congr_left
  intro i _
  by_cases h : i.id = qid <;> simp [h]

theorem processItem_events (remote : Remote) (db : AppDatabase)
    (item : SyncQueueItem) : (processItem remote db item).2 = callOf item := by
  unfold processItem callOf
  cases hh : entityHandlers item.entity with
  | false => simp
  | true =>
    cases hr : remote item.entity item.action item.payload <;> simp [hr]

theorem processItems_events (remote : Remote) (db : AppDatabase)
    (items : List SyncQueueItem) :
    (processItems remote db items).2 = items.flatMap callOf := by
  induction items generalizing db with
  | nil => rfl
  | cons item rest ih =>
    simp [processItems, processItem_events, ih]

/-! ### Claims -/

/-- C1 (counterexample): the claim that an entity with outstanding queue
items is never `synced` — and that a successful push sets `synced` only when
no newer queue item exists — is false on the code.  Starting from `db0`
(entity `e1` pending, queue = create then update for `e1`), with a remote
that acknowledges the create and rejects the update, one drain cycle ends
with `e1` marked `synced` while the newer update item is still in the queue:
`processQueue` runs `handler.repo.update(..., { syncStatus: "synced" })`
unconditionally on every successful non-delete push. -/
theorem C1_counterexample :
    ((processQueue true remoteFailUpdate { db := db0, isSyncing := false }).1.db.organizations.map
        Organization.syncStatus = [SyncStatus.synced])
    ∧ ((processQueue true remoteFailUpdate { db := db0, isSyncing := false }).1.db.sync_queue.map
        (fun i => i.payload.id) = ["e1"]) := by
  constructor <;> rfl

/-- C1 (amended): when the Sync Engine successfully pushes a `create` or
`update` queue item for a kind with a registered handler and the entity is
present locally, it always sets that entity's `syncStatus` to `synced` —
unconditionally, with no check for newer queue items — and removes exactly
that queue item. -/
theorem C1_amended_thm (remote : Remote) (db : AppDatabase)
    (item : SyncQueueItem)
    (hh : entityHandlers item.entity = true)
    (hok : remote item.entity item.action item.payload = Except.ok ())
    (hact : item.action ≠ SyncAction.delete)
    (hmem : db.organizations.any (fun o => o.id = item.payload.id) = true) :
    (processItem remote db item).1.organizations
      = db.organizations.map (fun o =>
          if o.id = item.payload.id then { o with syncStatus := SyncStatus.synced }
          else o)
    ∧ (processItem remote db item).1.sync_queue
      = queueDelete db.sync_queue item.id := by
  unfold processItem
  rw [hh, hok]
  simp only [eq_self_iff_true, if_true, if_neg hact]
  unfold organizationRepository.update tableUpdateOrg
  simp only [hmem, if_true]
  refine ⟨?_, trivial⟩
  apply List.map_congr_left
  intro o _
  by_cases h : o.id = item.payload.id <;> simp [h, applyChanges]

/-- C1 (amended, witness): instantiated on `db0` and `item1` with an
all-acknowledging remote. -/
theorem C1_amended_witness :
    (processItem remoteAllOk db0 item1).1.organizations
      = db0.organizations.map (fun o =>
          if o.id = item1.payload.id then { o with syncStatus := SyncStatus.synced }
          else o)
    ∧ (processItem remoteAllOk db0 item1).1.sync_queue
      = queueDelete db0.sync_queue item1.id :=
  C1_amended_thm remoteAllOk db0 item1 (by decide) rfl (by decide) (by decide)

/-- C2 (counterexample): the claim that the engine never invokes the remote
`update` handler before the `create` for the same entity has succeeded is
false on the code.  From `db0` with a remote that rejects `create` calls,
the drain cycle's trace shows the `update` call for `e1` issued right after
the failed `create` (the `catch` block only records the error and the loop
moves on), while the `create` item — never acknowledged — is still queued. -/
theorem C2_counterexample :
    ((processQueue true remoteFailCreate { db := db0, isSyncing := false }).2
      = [SyncEvent.readQueue 2,
         SyncEvent.apiCall EntityKind.organization SyncAction.create "e1",
         SyncEvent.apiCall EntityKind.organization SyncAction.update "e1"])
    ∧ ((processQueue true remoteFailCreate { db := db0, isSyncing := false }).1.db.sync_queue.map
        (fun i => (i.id, i.action)) = [(1, SyncAction.create)]) := by
  constructor <;> rfl

/-- C2 (amended): a drain cycle processes the queue snapshot strictly in
enqueue order — the trace of remote calls is exactly one call per handled
item, following the ascending-key order of `sync_queue` — but a failed
`create` does not stop the engine from invoking the `update` handler for the
same entity later in the same cycle: the trace is independent of the
outcomes the remote returns. -/
theorem C2_amended_thm (remote : Remote) (db : AppDatabase) :
    (processQueue true remote { db := db, isSyncing := false }).2
      = SyncEvent.readQueue db.sync_queue.length :: db.sync_queue.flatMap callOf := by
  unfold processQueue processQueue_guard
  simp only [Bool.false_or, Bool.not_true, if_neg (Bool.false_ne_true)]
  cases hq : db.sync_queue with
  | nil => simp
  | cons i rest => simp [hq, processItems_events]

/-- C3 (counterexample): the claim that every mutating repository call makes
its Local Store write and its Sync Queue enqueue visible as one atomic unit
is false on the code.  `useAddOrganization` writes the store in `mutationFn`
and only enqueues later in the separate `onSuccess` callback: the state
`mutationFn` resolves with — shown here on the empty database — already
contains the new organization while `sync_queue` is still empty, so a state
with the store write and no queue item is visible (and is what persists if
the enqueue step never runs). -/
theorem C3_counterexample :
    useAddOrganization.mutationFn "u1" "2026-01-01T00:00:00Z" "Coop"
        { organizations := [], sync_queue := [], nextQueueId := 0 }
      = Except.ok
          ({ organizations :=
              [{ id := "u1", name := "Coop", syncStatus := SyncStatus.pending,
                 lastModified := "2026-01-01T00:00:00Z" }],
             sync_queue := [], nextQueueId := 0 },
           { id := "u1", name := "Coop", syncStatus := SyncStatus.pending,
             lastModified := "2026-01-01T00:00:00Z" }) := by
  rfl

/-- C3 (amended): the create path performs its two effects in two separate
steps, not atomically.  When the generated id is fresh, `mutationFn`
resolves with the store extended by exactly the new entity and the queue
untouched (the intermediate, non-atomic state); the later `onSuccess` step
then appends exactly one `create` queue item and leaves the store untouched.
If the store write itself fails, `mutationFn` rejects and nothing is
enqueued. -/
theorem C3_amended_thm (genId now name : String) (db : AppDatabase)
    (h : db.organizations.any (fun o => o.id = genId) = false) :
    ∃ org db1,
      useAddOrganization.mutationFn genId now name db = Except.ok (db1, org)
      ∧ org = { id := genId, name := name, syncStatus := SyncStatus.pending,
                lastModified := now }
      ∧ db1.organizations = db.organizations ++ [org]
      ∧ db1.sync_queue = db.sync_queue
      ∧ (useAddOrganization.onSuccess org db1).organizations = db1.organizations
      ∧ (useAddOrganization.onSuccess org db1).sync_queue
          = db1.sync_queue ++
            [{ id := db1.nextQueueId, entity := EntityKind.organization,
               action := SyncAction.create, payload := org,
               retries := none, error := none }] := by
  refine ⟨{ id := genId, name := name, syncStatus := SyncStatus.pending,
            lastModified := now },
          { db with organizations := db.organizations ++
              [{ id := genId, name := name, syncStatus := SyncStatus.pending,
                 lastModified := now }] }, ?_, rfl, rfl, rfl, rfl, rfl⟩
  unfold useAddOrganization.mutationFn organizationRepository.add tableAddOrg
  simp only [h, if_false]
  rfl

/-- C3 (amended, witness): instantiated on the empty database. -/
theorem C3_amended_witness :
    ∃ org db1,
      useAddOrganization.mutationFn "u2" "2026-02-02T00:00:00Z" "Koop"
          { organizations := [], sync_queue := [], nextQueueId := 0 }
        = Except.ok (db1, org)
      ∧ org = { id := "u2", name := "Koop", syncStatus := SyncStatus.pending,
                lastModified := "2026-02-02T00:00:00Z" }
      ∧ db1.organizations = [] ++ [org]
      ∧ db1.sync_queue = []
      ∧ (useAddOrganization.onSuccess org db1).organizations = db1.organizations
      ∧ (useAddOrganization.onSuccess org db1).sync_queue
          = db1.sync_queue ++
            [{ id := db1.nextQueueId, entity := EntityKind.organization,
               action := SyncAction.create, payload := org,
               retries := none, error := none }] :=
  C3_amended_thm "u2" "2026-02-02T00:00:00Z" "Koop"
    { organizations := [], sync_queue := [], nextQueueId := 0 } (by decide)

/-- C4 (code divergence): evaluation of the code at the failing input.  With
entity `e1` pending and only its `create` queued, a remote that fails every
call, and two consecutive online drain cycles: after the first failed
attempt the item's `retries` field is still `none` (not `1`) — the `catch`
block only writes `error` — the entity's `syncStatus` is still `pending`
(never flipped to `error`), and the second cycle issues another network call
for the very same item, so no retry ceiling ever stops automatic retries.
The `catch` block's own comment, "Implement retry logic or mark as error",
marks the claimed behaviour as unimplemented. -/
theorem C4_code_divergence :
    ((processQueue true remoteFailAll
        { db := { organizations := [org1], sync_queue := [item1], nextQueueId := 2 },
          isSyncing := false }).1.db.sync_queue.map
        (fun i => (i.retries, i.error)) = [(none, some "Network Error")])
    ∧ ((processQueue true remoteFailAll
        { db := { organizations := [org1], sync_queue := [item1], nextQueueId := 2 },
          isSyncing := false }).1.db.organizations.map Organization.syncStatus
        = [SyncStatus.pending])
    ∧ ((processQueue true remoteFailAll
        (processQueue true remoteFailAll
          { db := { organizations := [org1], sync_queue := [item1], nextQueueId := 2 },
            isSyncing := false }).1).2
        = [SyncEvent.readQueue 1,
           SyncEvent.apiCall EntityKind.organization SyncAction.create "e1"]) := by
  refine ⟨rfl, rfl, rfl⟩

/-- Whether the push of a queue item succeeds: its kind has a registered
handler (so no `TypeError` precedes the call) and the remote acknowledges
the call. -/
def pushOk (remote : Remote) (item : SyncQueueItem) : Bool :=
  entityHandlers item.entity &&
    match remote item.entity item.action item.payload with
    | Except.ok _ => true
    | Except.error _ => false

/-- C5: a queue item is removed exactly when its own remote call succeeded.
On success the loop iteration deletes precisely that item's key from the
queue and, for non-`delete` actions, performs the repository update that
marks the entity `synced`; when the push did not succeed (no handler, or the
remote threw) the iteration removes nothing — every queue key survives. -/
theorem C5_thm (remote : Remote) (db : AppDatabase) (item : SyncQueueItem) :
    (pushOk remote item = true →
      (processItem remote db item).1.sync_queue = queueDelete db.sync_queue item.id
      ∧ (item.action ≠ SyncAction.delete →
          (processItem remote db item).1.organizations
            = (organizationRepository.update db item.payload.id
                { syncStatus := some SyncStatus.synced }).1.organizations))
    ∧ (pushOk remote item = false →
      (processItem remote db item).1.sync_queue.map SyncQueueItem.id
        = db.sync_queue.map SyncQueueItem.id) := by
  unfold pushOk processItem
  cases hh : entityHandlers item.entity with
  | false =>
    simp only [Bool.false_and, if_false]
    exact ⟨fun h => absurd h (by simp), fun _ => queueUpdate_ids _ _ _⟩
  | true =>
    cases hr : remote item.entity item.action item.payload with
    | ok u =>
      simp only [hr, Bool.true_and, eq_self_iff_true, if_true]
      refine ⟨fun _ => ⟨?_, fun ha => ?_⟩, fun h => by simp at h⟩
      · by_cases ha : item.action = SyncAction.delete <;>
          simp [ha, organizationRepository.update]
      · simp [if_neg ha]
    | error msg =>
      simp only [hr, Bool.true_and, eq_self_iff_true, if_true]
      exact ⟨fun h => by simp at h, fun _ => queueUpdate_ids _ _ _⟩

/-- C5 (witness): on `db0` and `item1` with an all-acknowledging remote the
hypothesis `pushOk = true` is discharged and the item's removal follows. -/
theorem C5_witness :
    (processItem remoteAllOk db0 item1).1.sync_queue = queueDelete db0.sync_queue item1.id :=
  (((C5_thm remoteAllOk db0 item1).1 (by decide))).1

/-- C6 (counterexample): the claim that `update` and `delete` fail with
`NotFound` on an unknown id is false on the code: the repository delegates
directly to Dexie, whose `Table.update` resolves normally with `0` updated
rows for an absent key and whose `Table.delete` resolves as a no-op.  On the
empty database both calls return normally — there is no failure channel at
all on this path (the part of the claim that holds: nothing changes). -/
theorem C6_counterexample :
    organizationRepository.update
        { organizations := [], sync_queue := [], nextQueueId := 0 } "missing"
        { syncStatus := some SyncStatus.synced }
      = ({ organizations := [], sync_queue := [], nextQueueId := 0 }, 0)
    ∧ organizationRepository.delete
        { organizations := [], sync_queue := [], nextQueueId := 0 } "missing"
      = { organizations := [], sync_queue := [], nextQueueId := 0 } := by
  refine ⟨rfl, rfl⟩

/-- C6 (amended): on an id unknown to the Local Store, `update` resolves
successfully with `0` updated rows and `delete` resolves as a no-op; in both
cases the Local Store and the Sync Queue are unchanged (the repository never
raises `NotFound`). -/
theorem C6_amended_thm (db : AppDatabase) (id : String) (c : OrgChanges)
    (h : db.organizations.any (fun o => o.id = id) = false) :
    organizationRepository.update db id c = (db, 0)
    ∧ organizationRepository.delete db id = db := by
  constructor
  · unfold organizationRepository.update tableUpdateOrg
    simp only [h]
    rfl
  · unfold organizationRepository.delete tableDeleteOrg
    have : db.organizations.filter (fun o => o.id ≠ id) = db.organizations := by
      apply List.filter_eq_self.mpr
      intro o ho
      have := List.any_eq_false.mp h o ho
      simpa using this
    rw [this]

/-- C6 (amended, witness): instantiated on the empty database. -/
theorem C6_amended_witness :
    organizationRepository.update
        { organizations := [], sync_queue := [], nextQueueId := 0 } "nope"
        { syncStatus := some SyncStatus.error }
      = ({ organizations := [], sync_queue := [], nextQueueId := 0 }, 0)
    ∧ organizationRepository.delete
        { organizations := [], sync_queue := [], nextQueueId := 0 } "nope"
      = { organizations := [], sync_queue := [], nextQueueId := 0 } :=
  C6_amended_thm { organizations := [], sync_queue := [], nextQueueId := 0 }
    "nope" { syncStatus := some SyncStatus.error } (by decide)

/-- Database holding `e1` with a single queued `delete` for it. -/
def dbD : AppDatabase :=
  { organizations := [org1], sync_queue := [itemD], nextQueueId := 8 }

/-- C7: the cycle entry point is guarded.  When the connectivity signal is
offline or a cycle is already running (`isSyncing = true`), `processQueue`
returns with the state unchanged and an empty trace — no queue snapshot is
read and no network call is made.  The second conjunct covers the two
triggers firing concurrently: the guard and the `isSyncing = true`
assignment are the synchronous prefix of the function, so the trigger that
enters first flips the flag before any suspension point, and any invocation
arriving while a cycle is in progress — whatever the database state `d` and
connectivity then are — is the same no-op. -/
theorem C7_thm (online : Bool) (remote : Remote) (s : SyncState)
    (h : s.isSyncing = true ∨ online = false) :
    processQueue online remote s = (s, [])
    ∧ ∀ (online2 : Bool) (remote2 : Remote) (d : AppDatabase),
        processQueue online2 remote2 { db := d, isSyncing := true }
          = ({ db := d, isSyncing := true }, []) := by
  constructor
  · unfold processQueue processQueue_guard
    rcases h with h | h <;> simp [h]
  · intro online2 remote2 d
    unfold processQueue processQueue_guard
    simp

/-- C7 (witness): a cycle invoked while another is running is a no-op. -/
theorem C7_witness :
    processQueue true remoteAllOk { db := db0, isSyncing := true }
      = ({ db := db0, isSyncing := true }, []) :=
  (C7_thm true remoteAllOk { db := db0, isSyncing := true } (Or.inl rfl)).1

/-- C8: with a fresh generated id, the create path resolves with the entity
`data` plus the generated `id`, `syncStatus = pending` and the supplied
`lastModified` timestamp; an immediate repository read finds exactly that
entity under the new id; and the path's apiClient trace is empty — the
mutation and its `onSuccess` touch only the local database. -/
theorem C8_thm (genId now name : String) (db : AppDatabase)
    (h : db.organizations.any (fun o => o.id = genId) = false) :
    ∃ db2,
      useAddOrganization.run genId now name db
        = Except.ok (db2,
            { id := genId, name := name, syncStatus := SyncStatus.pending,
              lastModified := now }, [])
      ∧ (organizationRepository.getAll db2).find? (fun o => o.id = genId)
          = some { id := genId, name := name, syncStatus := SyncStatus.pending,
                   lastModified := now } := by
  refine ⟨queueAdd
      { db with organizations := db.organizations ++
          [{ id := genId, name := name, syncStatus := SyncStatus.pending,
             lastModified := now }] }
      EntityKind.organization SyncAction.create
      { id := genId, name := name, syncStatus := SyncStatus.pending,
        lastModified := now }, ?_, ?_⟩
  · unfold useAddOrganization.run useAddOrganization.mutationFn
      useAddOrganization.onSuccess organizationRepository.add tableAddOrg
    simp only [h]
    rfl
  · unfold organizationRepository.getAll queueAdd
    show (db.organizations ++ _).find? _ = _
    rw [List.find?_append]
    have h1 : db.organizations.find? (fun o => o.id = genId) = none := by
      rw [List.find?_eq_none]
      intro x hx
      simpa using List.any_eq_false.mp h x hx
    rw [h1]
    simp

/-- C8 (witness): instantiated on the empty database. -/
theorem C8_witness :
    ∃ db2,
      useAddOrganization.run "u3" "2026-03-03T00:00:00Z" "Zoop"
          { organizations := [], sync_queue := [], nextQueueId := 0 }
        = Except.ok (db2,
            { id := "u3", name := "Zoop", syncStatus := SyncStatus.pending,
              lastModified := "2026-03-03T00:00:00Z" }, [])
      ∧ (organizationRepository.getAll db2).find? (fun o => o.id = "u3")
          = some { id := "u3", name := "Zoop", syncStatus := SyncStatus.pending,
                   lastModified := "2026-03-03T00:00:00Z" } :=
  C8_thm "u3" "2026-03-03T00:00:00Z" "Zoop"
    { organizations := [], sync_queue := [], nextQueueId := 0 } (by decide)

/-- C9: a queue item whose kind has no registered handler does not abort the
drain cycle.  Dereferencing the missing handler throws before any network
call; the `catch` block records the `TypeError` message on the item, which
stays in the queue; the loop then continues with the remaining items of the
batch exactly as if it had started from the updated database; and a cycle
that starts (flag initially down, online) always ends with the re-entrancy
flag reset. -/
theorem C9_thm (remote : Remote) (db : AppDatabase) (item : SyncQueueItem)
    (rest : List SyncQueueItem) (h : entityHandlers item.entity = false) :
    processItem remote db item
      = ({ db with sync_queue := queueUpdate db.sync_queue item.id handlerTypeError }, [])
    ∧ processItems remote db (item :: rest)
      = processItems remote
          { db with sync_queue := queueUpdate db.sync_queue item.id handlerTypeError }
          rest
    ∧ ∀ (s : SyncState), s.isSyncing = false →
        (processQueue true remote s).1.isSyncing = false := by
  have h1 : processItem remote db item
      = ({ db with sync_queue := queueUpdate db.sync_queue item.id handlerTypeError }, []) := by
    unfold processItem
    simp [h]
  refine ⟨h1, ?_, ?_⟩
  · simp [processItems, h1]
  · intro s hs
    unfold processQueue processQueue_guard
    simp only [hs, Bool.not_true, Bool.or_false, Bool.false_or]
    by_cases he : s.db.sync_queue.isEmpty <;> simp [he]

/-- C9 (witness): an `assessment` queue item with the all-acknowledging
remote on `db0`. -/
theorem C9_witness :
    processItem remoteAllOk db0 itemA
      = ({ db0 with sync_queue := queueUpdate db0.sync_queue itemA.id handlerTypeError }, [])
    ∧ processItems remoteAllOk db0 (itemA :: [])
      = processItems remoteAllOk
          { db0 with sync_queue := queueUpdate db0.sync_queue itemA.id handlerTypeError }
          []
    ∧ ∀ (s : SyncState), s.isSyncing = false →
        (processQueue true remoteAllOk s).1.isSyncing = false :=
  C9_thm remoteAllOk db0 itemA [] (by decide)

/-- C10: when the engine successfully pushes a `delete` queue item, the loop
iteration skips the repository update entirely — `organizations` is
untouched, no row is created, changed or removed — and the only state change
is the removal of exactly that item's key from `sync_queue`. -/
theorem C10_thm (remote : Remote) (db : AppDatabase) (item : SyncQueueItem)
    (ha : item.action = SyncAction.delete)
    (hh : entityHandlers item.entity = true)
    (hok : remote item.entity item.action item.payload = Except.ok ()) :
    processItem remote db item
      = ({ db with sync_queue := queueDelete db.sync_queue item.id },
         [SyncEvent.apiCall item.entity item.action item.payload.id]) := by
  unfold processItem
  rw [hh, hok]
  simp [ha]

/-- C10 (witness): a successful `delete` push on `dbD` removes the queue
item and leaves the `organizations` table as it was. -/
theorem C10_witness :
    processItem remoteAllOk dbD itemD
      = ({ dbD with sync_queue := queueDelete dbD.sync_queue itemD.id },
         [SyncEvent.apiCall itemD.entity itemD.action itemD.payload.id]) :=
  C10_thm remoteAllOk dbD itemD rfl (by decide) rfl
